import Mathlib

/-!
Verification development for the TreeView synchronization engine and the
nine-slice configuration checks of the makeshift editor
(src/tree_view.rs, src/nine_slice.rs, src/icon.rs).

The Rust code is shallowly embedded: Bevy entities are natural numbers,
Bevy HashMaps are association lists whose insert replaces the previous
binding for a key, and the fragment of the Bevy world that the engine
touches (spawn, despawn, set_parent, despawn_descendants, and the style
components Visibility, Display, BackgroundColor, UiImage, Text) is an
explicit record threaded through the passes.  A Rust unwrap that can
fail is embedded as an Option, with none playing the role of the Rust
process abort.
-/

abbrev Entity := Nat

/-- Association list keyed by entities; the model of bevy::utils::HashMap used
by TreeViewState.  Insert replaces any previous binding of the key, as the
Rust HashMap does. -/
structure AMap (α : Type) where
  entries : List (Entity × α)
deriving DecidableEq

def findEntry {α : Type} : List (Entity × α) → Entity → Option α
  | [], _ => none
  | p :: rest, k => if p.1 = k then some p.2 else findEntry rest k

def eraseEntry {α : Type} : List (Entity × α) → Entity → List (Entity × α)
  | [], _ => []
  | p :: rest, k => if p.1 = k then eraseEntry rest k else p :: eraseEntry rest k

def AMap.empty {α : Type} : AMap α := ⟨[]⟩

def AMap.find? {α : Type} (m : AMap α) (k : Entity) : Option α :=
  findEntry m.entries k

def AMap.erase {α : Type} (m : AMap α) (k : Entity) : AMap α :=
  ⟨eraseEntry m.entries k⟩

def AMap.insert {α : Type} (m : AMap α) (k : Entity) (v : α) : AMap α :=
  ⟨(k, v) :: eraseEntry m.entries k⟩

def AMap.contains {α : Type} (m : AMap α) (k : Entity) : Bool :=
  (m.find? k).isSome

theorem findEntry_eraseEntry_self {α : Type} (l : List (Entity × α)) (k : Entity) :
    findEntry (eraseEntry l k) k = none := by
  induction l with
  | nil => rfl
  | cons p rest ih =>
    by_cases h : p.1 = k
    · simp [eraseEntry, h, ih]
    · simp [eraseEntry, h, findEntry, ih]

theorem findEntry_eraseEntry_ne {α : Type} (l : List (Entity × α)) {k k' : Entity}
    (h : k' ≠ k) : findEntry (eraseEntry l k) k' = findEntry l k' := by
  induction l with
  | nil => rfl
  | cons p rest ih =>
    by_cases hp : p.1 = k <;> by_cases hp' : p.1 = k' <;>
      simp_all [eraseEntry, findEntry]

@[simp] theorem AMap.find?_insert_self {α : Type} (m : AMap α) (k : Entity) (v : α) :
    (m.insert k v).find? k = some v := by
  simp [AMap.insert, AMap.find?, findEntry]

theorem AMap.find?_insert_ne {α : Type} (m : AMap α) {k k' : Entity} (v : α)
    (h : k' ≠ k) : (m.insert k v).find? k' = m.find? k' := by
  have hk : k ≠ k' := fun hc => h hc.symm
  simp [AMap.insert, AMap.find?, findEntry, hk, findEntry_eraseEntry_ne m.entries h]

@[simp] theorem AMap.find?_erase_self {α : Type} (m : AMap α) (k : Entity) :
    (m.erase k).find? k = none := by
  simp [AMap.erase, AMap.find?, findEntry_eraseEntry_self]

theorem AMap.find?_erase_ne {α : Type} (m : AMap α) {k k' : Entity}
    (h : k' ≠ k) : (m.erase k).find? k' = m.find? k' := by
  simp [AMap.erase, AMap.find?, findEntry_eraseEntry_ne m.entries h]

/-- Model of bevy Visibility as used by the tree view (Inherited or Hidden). -/
inductive Visibility
  | inherited
  | hidden
  | visible
deriving DecidableEq

/-- Model of bevy Style display (Flex is the Style default; None hides). -/
inductive Display
  | flex
  | grid
  | none
deriving DecidableEq

/-- Model of bevy Interaction, the states of a Button widget. -/
inductive Interaction
  | clicked
  | hovered
  | none
deriving DecidableEq

/-- Model of bevy Color; the engine only ever compares concrete rgba values,
so rationals replace the f32 channels. -/
structure Color where
  r : ℚ
  g : ℚ
  b : ℚ
  a : ℚ
deriving DecidableEq

def Color.NONE : Color := ⟨0, 0, 0, 0⟩

/-- IconSize from src/icon.rs (XSmall = 16, Small = 24, Medium = 32). -/
inductive IconSize
  | xSmall
  | small
  | medium
deriving DecidableEq

def IconSize.pixels : IconSize → ℚ
  | .xSmall => 16
  | .small => 24
  | .medium => 32

def IconSize.suffixStr : IconSize → String
  | .xSmall => "16x16"
  | .small => "24x24"
  | .medium => "32x32"

/-- NamedIcon::request_icon from src/icon.rs: the asset path
icons/NAME.WxH.png, with @2x inserted when the scale exceeds 1. -/
def requestIcon (name : String) (scale : ℚ) (size : IconSize) : String :=
  "icons/" ++ name ++ "." ++ size.suffixStr ++ (if scale ≤ 1 then "" else "@2x") ++ ".png"

/-- The capability contract of a domain item (trait TreeViewItem): title,
icon texture (the result of icon().request_icon, kept opaque), and the
selection and hover flags. -/
structure ItemData where
  title : String
  icon : String
  is_selected : Bool
  is_hovered : Bool
deriving DecidableEq

/-- The fragment of the bevy ECS world the tree view engine touches.
Widgets are allocated with increasing ids; alive holds the spawned and not
yet despawned entities.  parentOf and childrenOf model the bevy Parent and
Children components maintained by set_parent; the remaining maps model the
style components set by the engine (absent key = bundle default). -/
structure World where
  nextId : Entity
  alive : List Entity
  parentOf : AMap Entity
  childrenOf : AMap (List Entity)
  visibility : AMap Visibility
  display : AMap Display
  background : AMap Color
  image : AMap String
  text : AMap String
deriving DecidableEq

def World.empty : World :=
  ⟨0, [], AMap.empty, AMap.empty, AMap.empty, AMap.empty, AMap.empty, AMap.empty, AMap.empty⟩

/-- Commands::spawn — allocates a fresh entity id. -/
def World.spawn (w : World) : Entity × World :=
  (w.nextId, { w with nextId := w.nextId + 1, alive := w.nextId :: w.alive })

/-- First half of bevy set_parent: detach the child from the Children list
of its previous parent, if it had one. -/
def World.removeFromOldParent (w : World) (child : Entity) : World :=
  match w.parentOf.find? child with
  | some oldP =>
      let newKids := ((w.childrenOf.find? oldP).getD []).filter (fun e => e != child)
      { w with childrenOf := w.childrenOf.insert oldP newKids }
  | none => w

/-- bevy EntityCommands::set_parent: detach from the old parent, set the
Parent component, and append the child at the end of the new parent's
Children list. -/
def World.setParent (w : World) (child parent : Entity) : World :=
  let w1 := w.removeFromOldParent child
  { w1 with
      parentOf := w1.parentOf.insert child parent,
      childrenOf := w1.childrenOf.insert parent
        (((w1.childrenOf.find? parent).getD []) ++ [child]) }

/-- bevy EntityCommands::despawn: removes exactly this entity.  In the bevy
revision this repository pins, despawn is NOT recursive: the Children of the
despawned entity stay alive and keep their stale Parent reference. -/
def World.despawn (w : World) (e : Entity) : World :=
  { w with alive := w.alive.filter (fun a => a != e) }

/-- Recursive despawn of a worklist of entities and all their descendants,
fuel-bounded for termination (the engine only ever builds acyclic widget
hierarchies, so the fuel is never exhausted on reachable states). -/
def World.despawnList (w : World) (fuel : Nat) (es : List Entity) : World :=
  match fuel, es with
  | _, [] => w
  | 0, _ => w
  | fuel + 1, e :: rest =>
      let kids := (w.childrenOf.find? e).getD []
      World.despawnList (w.despawn e) fuel (kids ++ rest)

/-- bevy DespawnRecursiveExt::despawn_descendants: despawns every descendant
of the entity (but not the entity itself) and clears its Children list. -/
def World.despawnDescendants (w : World) (e : Entity) : World :=
  let kids := (w.childrenOf.find? e).getD []
  let w1 := World.despawnList w (w.alive.length + kids.length + 1) kids
  { w1 with childrenOf := w1.childrenOf.insert e [] }

@[simp] theorem World.spawn_fst (w : World) : w.spawn.1 = w.nextId := rfl

@[simp] theorem World.spawn_visibility (w : World) : w.spawn.2.visibility = w.visibility := rfl
@[simp] theorem World.spawn_display (w : World) : w.spawn.2.display = w.display := rfl
@[simp] theorem World.spawn_background (w : World) : w.spawn.2.background = w.background := rfl
@[simp] theorem World.spawn_image (w : World) : w.spawn.2.image = w.image := rfl
@[simp] theorem World.spawn_text (w : World) : w.spawn.2.text = w.text := rfl
@[simp] theorem World.spawn_nextId (w : World) : w.spawn.2.nextId = w.nextId + 1 := rfl
@[simp] theorem World.spawn_alive (w : World) : w.spawn.2.alive = w.nextId :: w.alive := rfl

theorem World.removeFromOldParent_proj (w : World) (c : Entity) :
    (w.removeFromOldParent c).visibility = w.visibility ∧
    (w.removeFromOldParent c).display = w.display ∧
    (w.removeFromOldParent c).background = w.background ∧
    (w.removeFromOldParent c).image = w.image ∧
    (w.removeFromOldParent c).text = w.text ∧
    (w.removeFromOldParent c).nextId = w.nextId ∧
    (w.removeFromOldParent c).alive = w.alive ∧
    (w.removeFromOldParent c).parentOf = w.parentOf := by
  unfold World.removeFromOldParent
  split <;> simp

@[simp] theorem World.setParent_visibility (w : World) (c p : Entity) :
    (w.setParent c p).visibility = w.visibility := by
  simp [World.setParent, (w.removeFromOldParent_proj c).1]

@[simp] theorem World.setParent_display (w : World) (c p : Entity) :
    (w.setParent c p).display = w.display := by
  simp [World.setParent, (w.removeFromOldParent_proj c).2.1]

@[simp] theorem World.setParent_background (w : World) (c p : Entity) :
    (w.setParent c p).background = w.background := by
  simp [World.setParent, (w.removeFromOldParent_proj c).2.2.1]

@[simp] theorem World.setParent_image (w : World) (c p : Entity) :
    (w.setParent c p).image = w.image := by
  simp [World.setParent, (w.removeFromOldParent_proj c).2.2.2.1]

@[simp] theorem World.setParent_text (w : World) (c p : Entity) :
    (w.setParent c p).text = w.text := by
  simp [World.setParent, (w.removeFromOldParent_proj c).2.2.2.2.1]

@[simp] theorem World.setParent_nextId (w : World) (c p : Entity) :
    (w.setParent c p).nextId = w.nextId := by
  simp [World.setParent, (w.removeFromOldParent_proj c).2.2.2.2.2.1]

@[simp] theorem World.setParent_alive (w : World) (c p : Entity) :
    (w.setParent c p).alive = w.alive := by
  simp [World.setParent, (w.removeFromOldParent_proj c).2.2.2.2.2.2.1]

@[simp] theorem World.setParent_parentOf_self (w : World) (c p : Entity) :
    (w.setParent c p).parentOf.find? c = some p := by
  simp [World.setParent]

theorem World.setParent_mem_children (w : World) (c p : Entity) :
    c ∈ ((w.setParent c p).childrenOf.find? p).getD [] := by
  simp [World.setParent]

@[simp] theorem World.despawn_visibility (w : World) (e : Entity) :
    (w.despawn e).visibility = w.visibility := rfl
@[simp] theorem World.despawn_display (w : World) (e : Entity) :
    (w.despawn e).display = w.display := rfl
@[simp] theorem World.despawn_background (w : World) (e : Entity) :
    (w.despawn e).background = w.background := rfl
@[simp] theorem World.despawn_image (w : World) (e : Entity) :
    (w.despawn e).image = w.image := rfl
@[simp] theorem World.despawn_text (w : World) (e : Entity) :
    (w.despawn e).text = w.text := rfl
@[simp] theorem World.despawn_childrenOf (w : World) (e : Entity) :
    (w.despawn e).childrenOf = w.childrenOf := rfl
@[simp] theorem World.despawn_parentOf (w : World) (e : Entity) :
    (w.despawn e).parentOf = w.parentOf := rfl
@[simp] theorem World.despawn_nextId (w : World) (e : Entity) :
    (w.despawn e).nextId = w.nextId := rfl

theorem World.despawnList_proj (fuel : Nat) :
    ∀ (w : World) (es : List Entity),
      (w.despawnList fuel es).visibility = w.visibility ∧
      (w.despawnList fuel es).display = w.display ∧
      (w.despawnList fuel es).background = w.background ∧
      (w.despawnList fuel es).image = w.image ∧
      (w.despawnList fuel es).text = w.text ∧
      (w.despawnList fuel es).childrenOf = w.childrenOf ∧
      (w.despawnList fuel es).parentOf = w.parentOf ∧
      (w.despawnList fuel es).nextId = w.nextId := by
  induction fuel with
  | zero =>
    intro w es
    cases es <;> simp [World.despawnList]
  | succ n ih =>
    intro w es
    cases es with
    | nil => simp [World.despawnList]
    | cons e rest =>
      have h := ih (w.despawn e) (((w.childrenOf.find? e).getD []) ++ rest)
      simpa [World.despawnList] using h

@[simp] theorem World.despawnDescendants_visibility (w : World) (e : Entity) :
    (w.despawnDescendants e).visibility = w.visibility := by
  simp [World.despawnDescendants,
    (World.despawnList_proj _ w ((w.childrenOf.find? e).getD [])).1]

@[simp] theorem World.despawnDescendants_display (w : World) (e : Entity) :
    (w.despawnDescendants e).display = w.display := by
  simp [World.despawnDescendants,
    (World.despawnList_proj _ w ((w.childrenOf.find? e).getD [])).2.1]

@[simp] theorem World.despawnDescendants_background (w : World) (e : Entity) :
    (w.despawnDescendants e).background = w.background := by
  simp [World.despawnDescendants,
    (World.despawnList_proj _ w ((w.childrenOf.find? e).getD [])).2.2.1]

@[simp] theorem World.despawnDescendants_image (w : World) (e : Entity) :
    (w.despawnDescendants e).image = w.image := by
  simp [World.despawnDescendants,
    (World.despawnList_proj _ w ((w.childrenOf.find? e).getD [])).2.2.2.1]

@[simp] theorem World.despawnDescendants_text (w : World) (e : Entity) :
    (w.despawnDescendants e).text = w.text := by
  simp [World.despawnDescendants,
    (World.despawnList_proj _ w ((w.childrenOf.find? e).getD [])).2.2.2.2.1]

@[simp] theorem World.despawnDescendants_nextId (w : World) (e : Entity) :
    (w.despawnDescendants e).nextId = w.nextId := by
  simp [World.despawnDescendants,
    (World.despawnList_proj _ w ((w.childrenOf.find? e).getD [])).2.2.2.2.2.2.2]

/-- TreeViewState from src/tree_view.rs: the Identity Registry - the lazily
created content container plus the six bidirectional item/widget maps. -/
structure TreeViewState where
  content_node : Option Entity
  item_by_node : AMap Entity
  node_by_item : AMap Entity
  item_by_row : AMap Entity
  row_by_item : AMap Entity
  disclosure_by_item : AMap Entity
  item_by_disclosure : AMap Entity
  icon_by_item : AMap Entity
  item_by_icon : AMap Entity
  label_by_item : AMap Entity
  item_by_label : AMap Entity
  child_slot_by_item : AMap Entity
  item_by_child_slot : AMap Entity
deriving DecidableEq

def TreeViewState.empty : TreeViewState :=
  ⟨none, AMap.empty, AMap.empty, AMap.empty, AMap.empty, AMap.empty, AMap.empty,
    AMap.empty, AMap.empty, AMap.empty, AMap.empty, AMap.empty, AMap.empty⟩

/-- Row background from update_tree_views: the selected color when
is_selected, else the hovered color when is_hovered, else Color::NONE. -/
def rowBackground (is_sel is_hov : Bool) : Color :=
  if is_sel then ⟨0, 2/5, 1, 3/10⟩
  else if is_hov then ⟨1, 1, 1, 1/20⟩
  else Color.NONE

/-- The child count used for disclosure visibility: item_children
.map_or(0, count of children that are in the items query), i.e. the number
of children that are themselves domain items. -/
def countDomainChildren (items : AMap ItemData) (children : Option (List Entity)) : Nat :=
  match children with
  | none => 0
  | some cs => (cs.filter (fun c => (items.find? c).isSome)).length

/-- Lazy creation of the per-tree-view content container
(update_tree_views, start of the tree view loop). -/
def ensureContentNode (treeViewEntity : Entity) (sw : TreeViewState × World) :
    Entity × TreeViewState × World :=
  match sw.1.content_node with
  | some c => (c, sw.1, sw.2)
  | none =>
      let (c, w) := sw.2.spawn
      let w := w.setParent c treeViewEntity
      (c, { sw.1 with content_node := some c }, w)

/-- Content-changed pass, node block: reuse the node from node_by_item or
spawn it, record both map directions, and parent it under the content
container. -/
def ensureNode (contentNode : Entity) (sw : TreeViewState × World) (item : Entity) :
    Entity × TreeViewState × World :=
  match sw.1.node_by_item.find? item with
  | some e => (e, sw.1, sw.2)
  | none =>
      let (nd, w) := sw.2.spawn
      let s := { sw.1 with
        node_by_item := sw.1.node_by_item.insert item nd,
        item_by_node := sw.1.item_by_node.insert nd item }
      (nd, s, w.setParent nd contentNode)

/-- Content-changed pass, row block: reuse the row (after despawning its
descendants) or spawn it under the node and record both map directions. -/
def ensureRow (sw : TreeViewState × World) (item treeNode : Entity) :
    Entity × TreeViewState × World :=
  match sw.1.row_by_item.find? item with
  | some r => (r, sw.1, sw.2.despawnDescendants r)
  | none =>
      let (r, w) := sw.2.spawn
      let w := w.setParent r treeNode
      let s := { sw.1 with
        row_by_item := sw.1.row_by_item.insert item r,
        item_by_row := sw.1.item_by_row.insert r item }
      (r, s, w)

/-- Content-changed pass, disclosure block: always spawns a fresh disclosure
button (expanded glyph; hidden iff the item has no domain-item children),
parents it under the row and records both map directions. -/
def spawnDisclosure (items : AMap ItemData) (scale : ℚ) (size : IconSize)
    (sw : TreeViewState × World) (item row : Entity)
    (itemChildren : Option (List Entity)) : Entity × TreeViewState × World :=
  let (d, w) := sw.2.spawn
  let vis := if countDomainChildren items itemChildren = 0
    then Visibility.hidden else Visibility.inherited
  let w := { w with
    image := w.image.insert d (requestIcon "Disclosure.Expanded" scale size),
    visibility := w.visibility.insert d vis }
  let w := w.setParent d row
  let s := { sw.1 with
    disclosure_by_item := sw.1.disclosure_by_item.insert item d,
    item_by_disclosure := sw.1.item_by_disclosure.insert d item }
  (d, s, w)

/-- Content-changed pass, icon block: always spawns a fresh icon image with
the texture from the item icon() contract. -/
def spawnIconWidget (sw : TreeViewState × World) (item row : Entity)
    (data : ItemData) : Entity × TreeViewState × World :=
  let (ic, w) := sw.2.spawn
  let w := { w with image := w.image.insert ic data.icon }
  let w := w.setParent ic row
  let s := { sw.1 with
    icon_by_item := sw.1.icon_by_item.insert item ic,
    item_by_icon := sw.1.item_by_icon.insert ic item }
  (ic, s, w)

/-- Content-changed pass, label block: always spawns a fresh text widget
with the title() of the item. -/
def spawnLabel (sw : TreeViewState × World) (item row : Entity)
    (data : ItemData) : Entity × TreeViewState × World :=
  let (lb, w) := sw.2.spawn
  let w := { w with text := w.text.insert lb data.title }
  let w := w.setParent lb row
  let s := { sw.1 with
    label_by_item := sw.1.label_by_item.insert item lb,
    item_by_label := sw.1.item_by_label.insert lb item }
  (lb, s, w)

/-- Content-changed pass, child slot block: reuse the slot from
child_slot_by_item or spawn it under the node; both map directions are
(re)inserted unconditionally, as in the source. -/
def ensureChildSlot (sw : TreeViewState × World) (item treeNode : Entity) :
    Entity × TreeViewState × World :=
  let (cs, w) :=
    match sw.1.child_slot_by_item.find? item with
    | some c => (c, sw.2)
    | none =>
        let (c, w) := sw.2.spawn
        (c, w.setParent c treeNode)
  let s := { sw.1 with
    child_slot_by_item := sw.1.child_slot_by_item.insert item cs,
    item_by_child_slot := sw.1.item_by_child_slot.insert cs item }
  (cs, s, w)

/-- One iteration of the changed_items loop of update_tree_views: ensure the
node and the row, set the row background from the three-way selected or
hovered state, spawn fresh disclosure, icon and label widgets, and ensure
the child slot. -/
def processContentChangedItem (items : AMap ItemData) (scale : ℚ) (size : IconSize)
    (contentNode : Entity) (sw : TreeViewState × World) (item : Entity)
    (data : ItemData) (itemChildren : Option (List Entity)) : TreeViewState × World :=
  let n := ensureNode contentNode sw item
  let r := ensureRow n.2 item n.1
  let w1 : World := { r.2.2 with
    background := r.2.2.background.insert r.1 (rowBackground data.is_selected data.is_hovered) }
  let sd := spawnDisclosure items scale size (r.2.1, w1) item r.1 itemChildren
  let si := spawnIconWidget sd.2 item r.1 data
  let sl := spawnLabel si.2 item r.1 data
  let sc := ensureChildSlot sl.2 item n.1
  sc.2

/-- One iteration of the reparented_items loop: both registry lookups are
unwrapped in the source (a failed lookup aborts the process, embedded as
none); on success the node of the item is re-parented under the child slot
of the new parent item. -/
def processReparentedItem (sw : TreeViewState × World) (item newParentItem : Entity) :
    Option (TreeViewState × World) :=
  match sw.1.node_by_item.find? item with
  | none => none
  | some node_entity =>
      match sw.1.child_slot_by_item.find? newParentItem with
      | none => none
      | some parent_node_entity =>
          some (sw.1, sw.2.setParent node_entity parent_node_entity)

/-- One iteration of the orphaned_items loop: if the item is tracked, its
node is re-parented under the content container; an untracked item is
silently skipped (if-let, no unwrap), so this pass is total. -/
def processOrphanedItem (contentNode : Entity) (sw : TreeViewState × World)
    (item : Entity) : TreeViewState × World :=
  match sw.1.node_by_item.find? item with
  | some node_entity => (sw.1, sw.2.setParent node_entity contentNode)
  | none => sw

/-- One iteration of the rechilded_items loop: the disclosure lookup is
unwrapped in the source; the disclosure visibility is set to Inherited when
the item has more than zero domain-item children and to Hidden otherwise. -/
def processRechildedItem (items : AMap ItemData) (sw : TreeViewState × World)
    (item : Entity) (children : List Entity) : Option (TreeViewState × World) :=
  match sw.1.disclosure_by_item.find? item with
  | none => none
  | some disclosure_entity =>
      let vis := if 0 < (children.filter (fun c => (items.find? c).isSome)).length
        then Visibility.inherited else Visibility.hidden
      some (sw.1, { sw.2 with visibility := sw.2.visibility.insert disclosure_entity vis })

/-- One iteration of the removed_items loop: deregister child slot,
disclosure, icon and label (each forward lookup unwrapped, then both
directions erased), then deregister the node and despawn the node entity
(plain, non-recursive despawn). -/
def processRemovedItem (sw : TreeViewState × World) (item : Entity) :
    Option (TreeViewState × World) :=
  match sw.1.child_slot_by_item.find? item with
  | none => none
  | some child_slot_entity =>
    let s := { sw.1 with
      child_slot_by_item := sw.1.child_slot_by_item.erase item,
      item_by_child_slot := sw.1.item_by_child_slot.erase child_slot_entity }
    match s.disclosure_by_item.find? item with
    | none => none
    | some disclosure_entity =>
      let s := { s with
        disclosure_by_item := s.disclosure_by_item.erase item,
        item_by_disclosure := s.item_by_disclosure.erase disclosure_entity }
      match s.icon_by_item.find? item with
      | none => none
      | some icon_entity =>
        let s := { s with
          icon_by_item := s.icon_by_item.erase item,
          item_by_icon := s.item_by_icon.erase icon_entity }
        match s.label_by_item.find? item with
        | none => none
        | some label_entity =>
          let s := { s with
            label_by_item := s.label_by_item.erase item,
            item_by_label := s.item_by_label.erase label_entity }
          match s.node_by_item.find? item with
          | none => none
          | some node_entity =>
            let s := { s with
              node_by_item := s.node_by_item.erase item,
              item_by_node := s.item_by_node.erase node_entity }
            some (s, sw.2.despawn node_entity)

/-- One (disclosure, interaction, tree view) step of handle_disclosure_click.
TreeViewState is only borrowed immutably by the system, so it is returned
unchanged.  A disclosure unknown to this tree view is skipped; on a Clicked
transition the child slot lookup and the Style query access are unwrapped
(none on failure); the slot display then flips between None and Flex and the
disclosure image is set to the matching glyph. -/
def handleDisclosureClickOne (scale : ℚ) (size : IconSize)
    (s : TreeViewState) (w : World) (disclosure_entity : Entity)
    (inter : Interaction) : Option (TreeViewState × World) :=
  match s.item_by_disclosure.find? disclosure_entity with
  | none => some (s, w)
  | some item_entity =>
      match inter with
      | Interaction.clicked =>
          match s.child_slot_by_item.find? item_entity with
          | none => none
          | some child_slot =>
              if child_slot ∈ w.alive then
                match (w.display.find? child_slot).getD Display.flex with
                | Display.none =>
                    some (s, { w with
                      display := w.display.insert child_slot Display.flex,
                      image := w.image.insert disclosure_entity
                        (requestIcon "Disclosure.Expanded" scale size) })
                | _ =>
                    some (s, { w with
                      display := w.display.insert child_slot Display.none,
                      image := w.image.insert disclosure_entity
                        (requestIcon "Disclosure.Collapsed" scale size) })
              else none
      | _ => some (s, w)

/-- The sort key of sort_child_slot_children: the child widget is resolved to
its owning item through item_by_node and the item to its data in the items
query; both lookups are unwrapped in the source. -/
def nodeTitle (s : TreeViewState) (items : AMap ItemData) (c : Entity) : Option String :=
  (s.item_by_node.find? c).bind (fun i => (items.find? i).map ItemData.title)

/-- Children.sort_by_key with the title key: Rust sort_by_key is a stable
sort, modelled by the stable List.mergeSort; a child whose key lookup would
unwrap-fail makes the whole pass abort (none). -/
def sortSlotChildren (s : TreeViewState) (items : AMap ItemData)
    (children : List Entity) : Option (List Entity) :=
  if children.all (fun c => (nodeTitle s items c).isSome) then
    some (children.mergeSort (fun a b =>
      decide ((nodeTitle s items a).getD "" ≤ (nodeTitle s items b).getD "")))
  else none

/-- One (container, tree view) step of sort_child_slot_children: the sort
runs only when the container is a registered child slot of this tree view or
its content container; otherwise the children are left untouched. -/
def sortPass (s : TreeViewState) (items : AMap ItemData) (container : Entity)
    (children : List Entity) : Option (List Entity) :=
  if s.item_by_child_slot.contains container || s.content_node == some container then
    sortSlotChildren s items children
  else some children

/-! Concrete scenario used to evaluate the engine: a tree view widget 99 and
one domain item 100 preexist; the content container is created lazily, the
item is registered by a content-changed notification, and is then either
removed or named by a second content-changed notification. -/

def demoData : ItemData := ⟨"A", "texA", false, false⟩

def demoItems : AMap ItemData := ⟨[(100, demoData)]⟩

def demoWorld : World := { World.empty with nextId := 101, alive := [99, 100] }

def demoStep0 : Entity × TreeViewState × World :=
  ensureContentNode 99 (TreeViewState.empty, demoWorld)

/-- Registration tick: content node 101, node 102, row 103, disclosure 104,
icon 105, label 106, child slot 107. -/
def demoTick1 : TreeViewState × World :=
  processContentChangedItem demoItems 1 IconSize.xSmall demoStep0.1 demoStep0.2
    100 demoData (some [])

/-- The item-removed notification for item 100, processed after
registration. -/
def demoRemoved : Option (TreeViewState × World) := processRemovedItem demoTick1 100

def demoRemovedSW : TreeViewState × World :=
  demoRemoved.getD (TreeViewState.empty, World.empty)

/-- A second content-changed notification for the already tracked item 100:
the node 102, row 103 and child slot 107 are reused, the old disclosure 104,
icon 105 and label 106 are despawned with the row descendants, and fresh
disclosure 108, icon 109 and label 110 are spawned. -/
def demoTick2 : TreeViewState × World :=
  processContentChangedItem demoItems 1 IconSize.xSmall demoStep0.1 demoTick1
    100 demoData (some [])

/-- Claim C1: after an item-removed notification is processed, none of the
six registry entries of the item remain and the node widget with all its
structural descendants no longer exist.  The code violates both halves: the
removed_items loop of update_tree_views deregisters only five of the six
pairs — row_by_item and item_by_row are never touched — and it despawns the
node with the non-recursive despawn, so the row, disclosure, icon, label and
child-slot widgets all stay alive.  Evaluated here on item 100 registered in
demoTick1: the five deregistered pairs are gone and node 102 is despawned,
but the row pair 100 to 103 survives in both directions and widgets 103,
104, 105, 106, 107 are still alive. -/
theorem C1_removed_item_cleanup_incomplete :
    demoRemoved.isSome = true ∧
    demoRemovedSW.1.node_by_item.find? 100 = none ∧
    demoRemovedSW.1.item_by_node.find? 102 = none ∧
    demoRemovedSW.1.disclosure_by_item.find? 100 = none ∧
    demoRemovedSW.1.item_by_disclosure.find? 104 = none ∧
    demoRemovedSW.1.icon_by_item.find? 100 = none ∧
    demoRemovedSW.1.item_by_icon.find? 105 = none ∧
    demoRemovedSW.1.label_by_item.find? 100 = none ∧
    demoRemovedSW.1.item_by_label.find? 106 = none ∧
    demoRemovedSW.1.child_slot_by_item.find? 100 = none ∧
    demoRemovedSW.1.item_by_child_slot.find? 107 = none ∧
    (102 : Entity) ∉ demoRemovedSW.2.alive ∧
    demoRemovedSW.1.row_by_item.find? 100 = some 103 ∧
    demoRemovedSW.1.item_by_row.find? 103 = some 100 ∧
    (103 : Entity) ∈ demoRemovedSW.2.alive ∧
    (104 : Entity) ∈ demoRemovedSW.2.alive ∧
    (105 : Entity) ∈ demoRemovedSW.2.alive ∧
    (106 : Entity) ∈ demoRemovedSW.2.alive ∧
    (107 : Entity) ∈ demoRemovedSW.2.alive := by
  decide

/-- Claim C2: the six bidirectional mappings are claimed to stay mutually
consistent across every Reconciliation Engine pass, in particular across a
content-changed notification for an already tracked item.  The code violates
this: that pass spawns fresh disclosure, icon and label widgets and replaces
the forward entries, but never erases the old reverse entries, so after
demoTick2 the despawned widget 104 still maps to item 100 in
item_by_disclosure while item 100 now maps to disclosure 108 — the
widget-to-item-to-widget round trip no longer returns the original widget
(and likewise for icon 105 versus 109 and label 106 versus 110). -/
theorem C2_registry_round_trip_violated :
    demoTick2.1.node_by_item.find? 100 = some 102 ∧
    demoTick2.1.item_by_disclosure.find? 104 = some 100 ∧
    demoTick2.1.disclosure_by_item.find? 100 = some 108 ∧
    (104 : Entity) ∉ demoTick2.2.alive ∧
    demoTick2.1.item_by_icon.find? 105 = some 100 ∧
    demoTick2.1.icon_by_item.find? 100 = some 109 ∧
    demoTick2.1.item_by_label.find? 106 = some 100 ∧
    demoTick2.1.label_by_item.find? 100 = some 110 := by
  decide

theorem spawnDisclosure_spec (items : AMap ItemData) (scale : ℚ) (size : IconSize)
    (sw : TreeViewState × World) (item row : Entity)
    (itemChildren : Option (List Entity)) :
    (spawnDisclosure items scale size sw item row itemChildren).2.1.disclosure_by_item.find? item
        = some (spawnDisclosure items scale size sw item row itemChildren).1 ∧
    (spawnDisclosure items scale size sw item row itemChildren).2.2.visibility.find?
          (spawnDisclosure items scale size sw item row itemChildren).1
        = some (if countDomainChildren items itemChildren = 0
            then Visibility.hidden else Visibility.inherited) ∧
    (spawnDisclosure items scale size sw item row itemChildren).2.1.row_by_item
        = sw.1.row_by_item ∧
    (spawnDisclosure items scale size sw item row itemChildren).2.2.background
        = sw.2.background := by
  refine ⟨?_, ?_, ?_, ?_⟩ <;> simp [spawnDisclosure]

theorem spawnIconWidget_pres (sw : TreeViewState × World) (item row : Entity)
    (data : ItemData) :
    (spawnIconWidget sw item row data).2.1.disclosure_by_item = sw.1.disclosure_by_item ∧
    (spawnIconWidget sw item row data).2.1.row_by_item = sw.1.row_by_item ∧
    (spawnIconWidget sw item row data).2.2.visibility = sw.2.visibility ∧
    (spawnIconWidget sw item row data).2.2.background = sw.2.background := by
  refine ⟨?_, ?_, ?_, ?_⟩ <;> simp [spawnIconWidget]

theorem spawnLabel_pres (sw : TreeViewState × World) (item row : Entity)
    (data : ItemData) :
    (spawnLabel sw item row data).2.1.disclosure_by_item = sw.1.disclosure_by_item ∧
    (spawnLabel sw item row data).2.1.row_by_item = sw.1.row_by_item ∧
    (spawnLabel sw item row data).2.2.visibility = sw.2.visibility ∧
    (spawnLabel sw item row data).2.2.background = sw.2.background := by
  refine ⟨?_, ?_, ?_, ?_⟩ <;> simp [spawnLabel]

theorem ensureChildSlot_pres (sw : TreeViewState × World) (item treeNode : Entity) :
    (ensureChildSlot sw item treeNode).2.1.disclosure_by_item = sw.1.disclosure_by_item ∧
    (ensureChildSlot sw item treeNode).2.1.row_by_item = sw.1.row_by_item ∧
    (ensureChildSlot sw item treeNode).2.2.visibility = sw.2.visibility ∧
    (ensureChildSlot sw item treeNode).2.2.background = sw.2.background := by
  unfold ensureChildSlot
  rcases h : sw.1.child_slot_by_item.find? item with _ | c <;> simp [h, World.spawn]

theorem ensureRow_spec (sw : TreeViewState × World) (item treeNode : Entity) :
    (ensureRow sw item treeNode).2.1.row_by_item.find? item
        = some (ensureRow sw item treeNode).1 ∧
    (ensureRow sw item treeNode).2.1.disclosure_by_item = sw.1.disclosure_by_item := by
  unfold ensureRow
  split
  next r heq => exact ⟨heq, rfl⟩
  next => exact ⟨by simp, rfl⟩

theorem contentTail_spec (items : AMap ItemData) (scale : ℚ) (size : IconSize)
    (sw0 : TreeViewState × World) (item row treeNode : Entity) (data : ItemData)
    (itemChildren : Option (List Entity)) :
    (ensureChildSlot (spawnLabel (spawnIconWidget
        (spawnDisclosure items scale size sw0 item row itemChildren).2
        item row data).2 item row data).2 item treeNode).2.1.disclosure_by_item.find? item
      = some (spawnDisclosure items scale size sw0 item row itemChildren).1 ∧
    (ensureChildSlot (spawnLabel (spawnIconWidget
        (spawnDisclosure items scale size sw0 item row itemChildren).2
        item row data).2 item row data).2 item treeNode).2.2.visibility.find?
        (spawnDisclosure items scale size sw0 item row itemChildren).1
      = some (if countDomainChildren items itemChildren = 0
          then Visibility.hidden else Visibility.inherited) ∧
    (ensureChildSlot (spawnLabel (spawnIconWidget
        (spawnDisclosure items scale size sw0 item row itemChildren).2
        item row data).2 item row data).2 item treeNode).2.1.row_by_item
      = sw0.1.row_by_item ∧
    (ensureChildSlot (spawnLabel (spawnIconWidget
        (spawnDisclosure items scale size sw0 item row itemChildren).2
        item row data).2 item row data).2 item treeNode).2.2.background
      = sw0.2.background := by
  obtain ⟨hd1, hd2, hd3, hd4⟩ := spawnDisclosure_spec items scale size sw0 item row itemChildren
  refine ⟨?_, ?_, ?_, ?_⟩
  · rw [(ensureChildSlot_pres _ _ _).1, (spawnLabel_pres _ _ _ _).1,
      (spawnIconWidget_pres _ _ _ _).1, hd1]
  · rw [(ensureChildSlot_pres _ _ _).2.2.1, (spawnLabel_pres _ _ _ _).2.2.1,
      (spawnIconWidget_pres _ _ _ _).2.2.1, hd2]
  · rw [(ensureChildSlot_pres _ _ _).2.1, (spawnLabel_pres _ _ _ _).2.1,
      (spawnIconWidget_pres _ _ _ _).2.1, hd3]
  · rw [(ensureChildSlot_pres _ _ _).2.2.2, (spawnLabel_pres _ _ _ _).2.2.2,
      (spawnIconWidget_pres _ _ _ _).2.2.2, hd4]

theorem processContentChangedItem_spec (items : AMap ItemData) (scale : ℚ)
    (size : IconSize) (contentNode : Entity) (sw : TreeViewState × World)
    (item : Entity) (data : ItemData) (itemChildren : Option (List Entity)) :
    ∃ d row,
      (processContentChangedItem items scale size contentNode sw item data itemChildren).1.disclosure_by_item.find? item = some d ∧
      (processContentChangedItem items scale size contentNode sw item data itemChildren).2.visibility.find? d
        = some (if countDomainChildren items itemChildren = 0
            then Visibility.hidden else Visibility.inherited) ∧
      (processContentChangedItem items scale size contentNode sw item data itemChildren).1.row_by_item.find? item = some row ∧
      (processContentChangedItem items scale size contentNode sw item data itemChildren).2.background.find? row
        = some (rowBackground data.is_selected data.is_hovered) := by
  unfold processContentChangedItem
  dsimp only
  obtain ⟨h1, h2, h3, h4⟩ := contentTail_spec items scale size _ item _ _ data itemChildren
  refine ⟨_, (ensureRow (ensureNode contentNode sw item).2 item (ensureNode contentNode sw item).1).1, h1, h2, ?_, ?_⟩
  · rw [h3]
    exact (ensureRow_spec _ _ _).1
  · rw [h4]
    simp

/-- Claim C3: immediately after a content-changed or rechilded notification
naming an item is processed, the disclosure control of the item is hidden iff
the number of children of the item that are themselves domain items is zero
(non-domain children are not counted).  First conjunct: the content-changed
pass always leaves a disclosure d registered for the item whose visibility is
Hidden iff countDomainChildren is zero.  Second conjunct: the rechilded pass
(whose disclosure lookup must succeed, hypothesis h) sets the visibility of
that disclosure to Hidden iff the count is zero, and leaves the registry
untouched. -/
theorem C3_disclosure_visibility :
    (∀ (items : AMap ItemData) (scale : ℚ) (size : IconSize) (contentNode : Entity)
        (sw : TreeViewState × World) (item : Entity) (data : ItemData)
        (itemChildren : Option (List Entity)),
      ∃ d, (processContentChangedItem items scale size contentNode sw item data itemChildren).1.disclosure_by_item.find? item = some d ∧
        (((processContentChangedItem items scale size contentNode sw item data itemChildren).2.visibility.find? d = some Visibility.hidden) ↔
          countDomainChildren items itemChildren = 0)) ∧
    (∀ (items : AMap ItemData) (sw : TreeViewState × World) (item d : Entity)
        (children : List Entity),
      sw.1.disclosure_by_item.find? item = some d →
      ∃ w, processRechildedItem items sw item children = some (sw.1, w) ∧
        ((w.visibility.find? d = some Visibility.hidden) ↔
          countDomainChildren items (some children) = 0)) := by
  constructor
  · intro items scale size contentNode sw item data itemChildren
    obtain ⟨d, row, h1, h2, h3, h4⟩ :=
      processContentChangedItem_spec items scale size contentNode sw item data itemChildren
    refine ⟨d, h1, ?_⟩
    rw [h2]
    by_cases hc : countDomainChildren items itemChildren = 0 <;> simp [hc]
  · intro items sw item d children h
    have he : processRechildedItem items sw item children
        = some (sw.1, { sw.2 with visibility := sw.2.visibility.insert d (if 0 < (children.filter (fun c => (items.find? c).isSome)).length then Visibility.inherited else Visibility.hidden) }) := by
      unfold processRechildedItem
      rw [h]
    refine ⟨_, he, ?_⟩
    simp only [AMap.find?_insert_self]
    by_cases hc : 0 < (children.filter (fun c => (items.find? c).isSome)).length
    · simp [hc, countDomainChildren]
      obtain ⟨x, hx⟩ := List.exists_mem_of_length_pos hc
      rcases List.mem_filter.mp hx with ⟨hx1, hx2⟩
      exact ⟨x, hx1, by simpa [Option.isSome_iff_ne_none] using hx2⟩
    · simp [hc, countDomainChildren]
      intro a ha
      by_contra hne
      have hmem : a ∈ List.filter (fun c => (items.find? c).isSome) children :=
        List.mem_filter.mpr ⟨ha, by simpa [Option.isSome_iff_ne_none] using hne⟩
      exact hc (List.length_pos.mpr (List.ne_nil_of_mem hmem))

/-- Claim C7: for every item processed by a content-changed notification the
row background is the three-way state rowBackground is_selected is_hovered,
where the selected color wins over the hovered color for all four flag
combinations, and the three colors (selected, hovered, transparent neutral)
are pairwise distinct. -/
theorem C7_row_background_three_way :
    (∀ (items : AMap ItemData) (scale : ℚ) (size : IconSize) (contentNode : Entity)
        (sw : TreeViewState × World) (item : Entity) (data : ItemData)
        (itemChildren : Option (List Entity)),
      ∃ row, (processContentChangedItem items scale size contentNode sw item data itemChildren).1.row_by_item.find? item = some row ∧
        (processContentChangedItem items scale size contentNode sw item data itemChildren).2.background.find? row
          = some (rowBackground data.is_selected data.is_hovered)) ∧
    rowBackground true true = ⟨0, 2/5, 1, 3/10⟩ ∧
    rowBackground true false = ⟨0, 2/5, 1, 3/10⟩ ∧
    rowBackground false true = ⟨1, 1, 1, 1/20⟩ ∧
    rowBackground false false = Color.NONE ∧
    (⟨0, 2/5, 1, 3/10⟩ : Color) ≠ ⟨1, 1, 1, 1/20⟩ ∧
    (⟨0, 2/5, 1, 3/10⟩ : Color) ≠ Color.NONE ∧
    (⟨1, 1, 1, 1/20⟩ : Color) ≠ Color.NONE := by
  refine ⟨?_, rfl, rfl, rfl, rfl, by norm_num [Color.mk.injEq], by norm_num [Color.mk.injEq, Color.NONE], by norm_num [Color.mk.injEq, Color.NONE]⟩
  intro items scale size contentNode sw item data itemChildren
  obtain ⟨d, row, h1, h2, h3, h4⟩ :=
    processContentChangedItem_spec items scale size contentNode sw item data itemChildren
  exact ⟨row, h3, h4⟩

/-- Witness for C3: item 100 with zero children, registered from scratch
(first conjunct) and then rechilded with an empty child list against the
demoTick1 state, where its disclosure is widget 104 (second conjunct). -/
theorem C3_disclosure_visibility_witness :
    (∃ d, (processContentChangedItem demoItems 1 IconSize.xSmall 101 (TreeViewState.empty, demoWorld) 100 demoData (some [])).1.disclosure_by_item.find? 100 = some d ∧
      (((processContentChangedItem demoItems 1 IconSize.xSmall 101 (TreeViewState.empty, demoWorld) 100 demoData (some [])).2.visibility.find? d = some Visibility.hidden) ↔
        countDomainChildren demoItems (some []) = 0)) ∧
    (∃ w, processRechildedItem demoItems demoTick1 100 [] = some (demoTick1.1, w) ∧
      ((w.visibility.find? 104 = some Visibility.hidden) ↔
        countDomainChildren demoItems (some []) = 0)) :=
  ⟨C3_disclosure_visibility.1 demoItems 1 IconSize.xSmall 101 (TreeViewState.empty, demoWorld) 100 demoData (some []),
   C3_disclosure_visibility.2 demoItems demoTick1 100 104 [] (by decide)⟩

/-- Claim C4: when the Reconciliation Engine processes a reparented
notification, the node of the item is looked up via node_by_item and the
destination via child_slot_by_item of the new parent; the pass aborts (none,
the embedding of the unwrap panic) exactly when either lookup fails, and when
both succeed the node is re-parented under the child slot of the new parent
(Parent set and node appended to the Children of the slot) with the registry
untouched. -/
theorem C4_reparent_lookup_contract :
    (∀ (sw : TreeViewState × World) (item p : Entity),
      processReparentedItem sw item p = none ↔
        (sw.1.node_by_item.find? item = none ∨ sw.1.child_slot_by_item.find? p = none)) ∧
    (∀ (sw : TreeViewState × World) (item p nd slot : Entity),
      sw.1.node_by_item.find? item = some nd →
      sw.1.child_slot_by_item.find? p = some slot →
      processReparentedItem sw item p = some (sw.1, sw.2.setParent nd slot) ∧
      (sw.2.setParent nd slot).parentOf.find? nd = some slot ∧
      nd ∈ ((sw.2.setParent nd slot).childrenOf.find? slot).getD []) := by
  constructor
  · intro sw item p
    unfold processReparentedItem
    cases h1 : sw.1.node_by_item.find? item with
    | none => simp
    | some nd =>
      cases h2 : sw.1.child_slot_by_item.find? p with
      | none => simp [h2]
      | some slot => simp [h2]
  · intro sw item p nd slot h1 h2
    refine ⟨?_, World.setParent_parentOf_self _ _ _, World.setParent_mem_children _ _ _⟩
    unfold processReparentedItem
    rw [h1, h2]

/-- Witness for C4: in the demoTick1 state, item 100 has node 102 and child
slot 107, and reparenting succeeds. -/
theorem C4_reparent_lookup_contract_witness :
    processReparentedItem demoTick1 100 100 = some (demoTick1.1, demoTick1.2.setParent 102 107) ∧
    (demoTick1.2.setParent 102 107).parentOf.find? 102 = some 107 ∧
    102 ∈ ((demoTick1.2.setParent 102 107).childrenOf.find? 107).getD [] :=
  C4_reparent_lookup_contract.2 demoTick1 100 100 102 107 (by decide) (by decide)

/-- Claim C9: processing an orphaned notification for an item that is not
tracked (absent from node_by_item) is a silent no-op: the pass is total (its
only lookup is an if-let, never an unwrap, so no abort is possible), no
widget is moved and neither the registry nor the world changes. -/
theorem C9_orphaned_untracked_is_noop :
    ∀ (contentNode : Entity) (sw : TreeViewState × World) (item : Entity),
      sw.1.node_by_item.find? item = none →
      processOrphanedItem contentNode sw item = sw := by
  intro contentNode sw item h
  unfold processOrphanedItem
  rw [h]

/-- Witness for C9: item 55 is not tracked in demoTick1, so the orphaned pass
returns the state and world unchanged. -/
theorem C9_orphaned_untracked_is_noop_witness :
    processOrphanedItem 101 demoTick1 55 = demoTick1 :=
  C9_orphaned_untracked_is_noop 101 demoTick1 55 (by decide)

/-- Claim C6: when a disclosure control transitions into the clicked state,
the Disclosure Controller flips only the child-slot display of the owning
item between None (hidden) and Flex (shown) and sets the disclosure image to
the matching glyph (Disclosure.Expanded when shown, Disclosure.Collapsed when
hidden); the registry is returned unchanged (the system only borrows it
immutably) and no widget is created or destroyed (alive, nextId, parent and
children links, and every other style map are unchanged; display changes only
at the child slot and image only at the disclosure). -/
theorem C6_disclosure_click_effects :
    ∀ (scale : ℚ) (size : IconSize) (s : TreeViewState) (w : World)
      (d item cs : Entity),
      s.item_by_disclosure.find? d = some item →
      s.child_slot_by_item.find? item = some cs →
      cs ∈ w.alive →
      ∃ w2, handleDisclosureClickOne scale size s w d Interaction.clicked = some (s, w2) ∧
        w2.display.find? cs = some (if (w.display.find? cs).getD Display.flex = Display.none
          then Display.flex else Display.none) ∧
        w2.image.find? d = some (requestIcon (if (w.display.find? cs).getD Display.flex = Display.none
          then "Disclosure.Expanded" else "Disclosure.Collapsed") scale size) ∧
        w2.alive = w.alive ∧ w2.nextId = w.nextId ∧ w2.parentOf = w.parentOf ∧
        w2.childrenOf = w.childrenOf ∧ w2.visibility = w.visibility ∧
        w2.background = w.background ∧ w2.text = w.text ∧
        (∀ e, e ≠ cs → w2.display.find? e = w.display.find? e) ∧
        (∀ e, e ≠ d → w2.image.find? e = w.image.find? e) := by
  intro scale size s w d item cs h1 h2 h3
  cases hdisp : (w.display.find? cs).getD Display.flex with
  | none =>
      refine ⟨{ w with display := w.display.insert cs Display.flex, image := w.image.insert d (requestIcon "Disclosure.Expanded" scale size) }, ?_, ?_, ?_, rfl, rfl, rfl, rfl, rfl, rfl, rfl, ?_, ?_⟩
      · simp [handleDisclosureClickOne, h1, h2, h3, hdisp]
      · simp
      · simp
      · intro e he
        exact AMap.find?_insert_ne _ _ he
      · intro e he
        exact AMap.find?_insert_ne _ _ he
  | flex =>
      refine ⟨{ w with display := w.display.insert cs Display.none, image := w.image.insert d (requestIcon "Disclosure.Collapsed" scale size) }, ?_, ?_, ?_, rfl, rfl, rfl, rfl, rfl, rfl, rfl, ?_, ?_⟩
      · simp [handleDisclosureClickOne, h1, h2, h3, hdisp]
      · simp
      · simp
      · intro e he
        exact AMap.find?_insert_ne _ _ he
      · intro e he
        exact AMap.find?_insert_ne _ _ he
  | grid =>
      refine ⟨{ w with display := w.display.insert cs Display.none, image := w.image.insert d (requestIcon "Disclosure.Collapsed" scale size) }, ?_, ?_, ?_, rfl, rfl, rfl, rfl, rfl, rfl, rfl, ?_, ?_⟩
      · simp [handleDisclosureClickOne, h1, h2, h3, hdisp]
      · simp
      · simp
      · intro e he
        exact AMap.find?_insert_ne _ _ he
      · intro e he
        exact AMap.find?_insert_ne _ _ he

/-- Claim C5: when a registered child-slot container (or the content
container) has a changed child set, the Sort Stabilizer reorders the children
into ascending lexicographic order of the owning item title, recomputed
through item_by_node and the items query at sort time; the result is a
permutation of the input (no widget is created or destroyed), and running the
pass again on the already sorted list returns it unchanged (idempotence,
because the underlying sort is stable). -/
theorem C5_sort_stabilizer :
    ∀ (s : TreeViewState) (items : AMap ItemData) (container : Entity)
      (children sorted : List Entity),
      (s.item_by_child_slot.contains container = true ∨ s.content_node = some container) →
      sortPass s items container children = some sorted →
      List.Pairwise (fun a b => (nodeTitle s items a).getD "" ≤ (nodeTitle s items b).getD "") sorted ∧
      sorted.Perm children ∧
      sortPass s items container sorted = some sorted := by
  intro s items container children sorted hc hs
  have hcond : (s.item_by_child_slot.contains container || s.content_node == some container) = true := by
    rcases hc with h | h
    · simp [h]
    · simp [h]
  have htrans : ∀ a b c : Entity,
      (decide ((nodeTitle s items a).getD "" ≤ (nodeTitle s items b).getD "")) = true →
      (decide ((nodeTitle s items b).getD "" ≤ (nodeTitle s items c).getD "")) = true →
      (decide ((nodeTitle s items a).getD "" ≤ (nodeTitle s items c).getD "")) = true := by
    intro a b c hab hbc
    simp only [decide_eq_true_eq] at hab hbc ⊢
    exact le_trans hab hbc
  have htotal : ∀ a b : Entity,
      ((decide ((nodeTitle s items a).getD "" ≤ (nodeTitle s items b).getD "")) ||
       (decide ((nodeTitle s items b).getD "" ≤ (nodeTitle s items a).getD ""))) = true := by
    intro a b
    simp only [Bool.or_eq_true, decide_eq_true_eq]
    exact le_total _ _
  unfold sortPass at hs
  rw [if_pos hcond] at hs
  unfold sortSlotChildren at hs
  by_cases hall : children.all (fun c => (nodeTitle s items c).isSome) = true
  · rw [if_pos hall] at hs
    cases hs
    have hsorted := List.sorted_mergeSort htrans htotal children
    refine ⟨hsorted.imp (fun h => by simpa using h), List.mergeSort_perm children _, ?_⟩
    unfold sortPass
    rw [if_pos hcond]
    unfold sortSlotChildren
    have hall2 : (children.mergeSort (fun a b =>
        decide ((nodeTitle s items a).getD "" ≤ (nodeTitle s items b).getD ""))).all
        (fun c => (nodeTitle s items c).isSome) = true := by
      rw [List.all_eq_true] at hall ⊢
      intro c hcmem
      exact hall c ((List.mergeSort_perm children _).mem_iff.mp hcmem)
    rw [if_pos hall2, List.mergeSort_of_sorted hsorted]
  · rw [if_neg hall] at hs
    cases hs

def sortState : TreeViewState :=
  { TreeViewState.empty with content_node := some 50, item_by_node := ⟨[(5, 9)]⟩ }

def sortItems : AMap ItemData := ⟨[(9, ⟨"B", "tex", false, false⟩)]⟩

/-- Witness for C5: a content container 50 with a single node child 5 owned
by item 9. -/
theorem C5_sort_stabilizer_witness :
    List.Pairwise (fun a b => (nodeTitle sortState sortItems a).getD ""
      ≤ (nodeTitle sortState sortItems b).getD "") [5] ∧
    List.Perm [5] [5] ∧
    sortPass sortState sortItems 50 [5] = some [5] :=
  C5_sort_stabilizer sortState sortItems 50 [5] [5] (Or.inr rfl)
    (by simp [sortPass, sortSlotChildren, sortState, sortItems, nodeTitle,
      TreeViewState.empty, AMap.contains, AMap.find?, AMap.empty, findEntry])

/-- The three systems that TreeViewPlugin::build adds to the Update
schedule. -/
inductive TreeViewSystem
  | updateTreeViews
  | handleDisclosureClick
  | sortChildSlotChildren
deriving DecidableEq

/-- TreeViewPlugin::build: app.add_systems with the plain tuple of the three
systems update_tree_views, handle_disclosure_click,
sort_child_slot_children. -/
def treeViewPluginSystems : List TreeViewSystem :=
  [TreeViewSystem.updateTreeViews, TreeViewSystem.handleDisclosureClick,
    TreeViewSystem.sortChildSlotChildren]

/-- The ordering constraints declared by TreeViewPlugin::build: the tuple is
added without .chain() and without any before or after constraint, so the set
of declared orderings is empty and the bevy scheduler may run the three
systems in any order. -/
def treeViewPluginOrderingConstraints : List (TreeViewSystem × TreeViewSystem) := []

/-- An execution order the scheduler may pick for one Update tick: any
permutation of the registered systems that respects every declared ordering
constraint. -/
def validUpdateOrder (order : List TreeViewSystem) : Prop :=
  order.Perm treeViewPluginSystems ∧
  ∀ c ∈ treeViewPluginOrderingConstraints, order.indexOf c.1 < order.indexOf c.2

/-- Counterexample for claim C8: the claim says the three passes execute in
the fixed order Reconciliation Engine, Disclosure Controller, Sort
Stabilizer; but the build function declares no ordering constraint, so the
order with the Disclosure Controller first is also a valid scheduler choice
and differs from the claimed fixed order. -/
theorem C8_no_enforced_pass_order :
    validUpdateOrder [TreeViewSystem.handleDisclosureClick, TreeViewSystem.updateTreeViews,
      TreeViewSystem.sortChildSlotChildren] ∧
    [TreeViewSystem.handleDisclosureClick, TreeViewSystem.updateTreeViews,
      TreeViewSystem.sortChildSlotChildren] ≠ treeViewPluginSystems := by
  refine ⟨⟨?_, ?_⟩, by decide⟩
  · exact List.Perm.swap _ _ _
  · intro c hcmem
    simp [treeViewPluginOrderingConstraints] at hcmem

/-- Claim C8 as amended: each of the three passes is registered exactly once
in the Update schedule, so in every valid scheduler order each pass runs
exactly once per tick and drains its notification set exactly once; the
relative order of the three passes, however, is not constrained by the
plugin. -/
theorem C8_each_pass_once_per_tick :
    ∀ order : List TreeViewSystem, validUpdateOrder order →
      order.count TreeViewSystem.updateTreeViews = 1 ∧
      order.count TreeViewSystem.handleDisclosureClick = 1 ∧
      order.count TreeViewSystem.sortChildSlotChildren = 1 ∧
      order.length = 3 := by
  intro order h
  obtain ⟨hp, -⟩ := h
  refine ⟨?_, ?_, ?_, ?_⟩
  · rw [hp.count_eq]
    decide
  · rw [hp.count_eq]
    decide
  · rw [hp.count_eq]
    decide
  · rw [hp.length_eq]
    decide

/-- Witness for C8: the registration order itself is a valid scheduler
order. -/
theorem C8_each_pass_once_per_tick_witness :
    treeViewPluginSystems.count TreeViewSystem.updateTreeViews = 1 ∧
    treeViewPluginSystems.count TreeViewSystem.handleDisclosureClick = 1 ∧
    treeViewPluginSystems.count TreeViewSystem.sortChildSlotChildren = 1 ∧
    treeViewPluginSystems.length = 3 :=
  C8_each_pass_once_per_tick treeViewPluginSystems
    ⟨List.Perm.refl _, by intro c hcmem; simp [treeViewPluginOrderingConstraints] at hcmem⟩

/-- Model of bevy Val (style units): Auto, Px, Percent and the viewport
units. -/
inductive Val
  | auto
  | px (v : ℚ)
  | percent (v : ℚ)
  | vw (v : ℚ)
  | vh (v : ℚ)
  | vmin (v : ℚ)
  | vmax (v : ℚ)
deriving DecidableEq

structure UiRect where
  left : Val
  right : Val
  top : Val
  bottom : Val
deriving DecidableEq

structure NineSlice where
  image : String
  width : Val
  height : Val
  slice : UiRect
deriving DecidableEq

def Val.isPx : Val → Bool
  | .px _ => true
  | _ => false

def Val.isPercent : Val → Bool
  | .percent _ => true
  | _ => false

/-- One edge of the slice-rect unit check of update_nine_slices
(src/nine_slice.rs): a pixel edge requires a pixel width — all four blocks of
the source match on nine_slice.width, including the top and bottom blocks,
whose panic messages mention height but whose code checks width; a percent
edge passes through; any other unit is a fatal error.  The panic is embedded
as none. -/
def edgePercent (edge width : Val) : Option ℚ :=
  match edge with
  | .px v =>
      match width with
      | .px wv => some (v / wv * 100)
      | _ => none
  | .percent p => some p
  | _ => none

/-- The four slice-percent computations of update_nine_slices, in source
order (left, right, top, bottom); the first failing edge aborts. -/
def nineSlicePercents (ns : NineSlice) : Option (ℚ × ℚ × ℚ × ℚ) :=
  match edgePercent ns.slice.left ns.width with
  | none => none
  | some l =>
    match edgePercent ns.slice.right ns.width with
    | none => none
    | some r =>
      match edgePercent ns.slice.top ns.width with
      | none => none
      | some t =>
        match edgePercent ns.slice.bottom ns.width with
        | none => none
        | some b => some (l, r, t, b)

theorem edgePercent_eq_none_iff (edge width : Val) :
    edgePercent edge width = none ↔
      (edge.isPx = true ∧ width.isPx = false) ∨
      (edge.isPx = false ∧ edge.isPercent = false) := by
  cases edge <;> cases width <;> simp [edgePercent, Val.isPx, Val.isPercent]

theorem nineSlicePercents_eq_none_iff (ns : NineSlice) :
    nineSlicePercents ns = none ↔
      (edgePercent ns.slice.left ns.width = none ∨
       edgePercent ns.slice.right ns.width = none ∨
       edgePercent ns.slice.top ns.width = none ∨
       edgePercent ns.slice.bottom ns.width = none) := by
  unfold nineSlicePercents
  cases h1 : edgePercent ns.slice.left ns.width <;>
    cases h2 : edgePercent ns.slice.right ns.width <;>
      cases h3 : edgePercent ns.slice.top ns.width <;>
        cases h4 : edgePercent ns.slice.bottom ns.width <;>
          simp

/-- Claim C10: processing a NineSlice panics exactly when some edge of the
slice rect uses a pixel value while the width is not a pixel value, or uses
any unit other than pixels or percent; consequently a NineSlice using only
percent edges, or pixel edges together with a pixel width, never panics. -/
theorem C10_nine_slice_unit_check (ns : NineSlice) :
    nineSlicePercents ns = none ↔
      ∃ e ∈ [ns.slice.left, ns.slice.right, ns.slice.top, ns.slice.bottom],
        (e.isPx = true ∧ ns.width.isPx = false) ∨
        (e.isPx = false ∧ e.isPercent = false) := by
  rw [nineSlicePercents_eq_none_iff]
  simp only [edgePercent_eq_none_iff, List.mem_cons, List.not_mem_nil, or_false,
    exists_eq_or_imp, exists_eq_left]

def clickState : TreeViewState :=
  { TreeViewState.empty with item_by_disclosure := ⟨[(4, 2)]⟩, child_slot_by_item := ⟨[(2, 7)]⟩ }

def clickWorld : World := { World.empty with alive := [7, 4] }

/-- Witness for C6: clicking disclosure 4, owned by item 2 whose child slot
is widget 7, in a world where the slot is alive and currently shown. -/
theorem C6_disclosure_click_effects_witness :
    ∃ w2, handleDisclosureClickOne 1 IconSize.xSmall clickState clickWorld 4 Interaction.clicked = some (clickState, w2) ∧
      w2.display.find? 7 = some (if (clickWorld.display.find? 7).getD Display.flex = Display.none then Display.flex else Display.none) ∧
      w2.image.find? 4 = some (requestIcon (if (clickWorld.display.find? 7).getD Display.flex = Display.none then "Disclosure.Expanded" else "Disclosure.Collapsed") 1 IconSize.xSmall) ∧
      w2.alive = clickWorld.alive ∧ w2.nextId = clickWorld.nextId ∧ w2.parentOf = clickWorld.parentOf ∧
      w2.childrenOf = clickWorld.childrenOf ∧ w2.visibility = clickWorld.visibility ∧
      w2.background = clickWorld.background ∧ w2.text = clickWorld.text ∧
      (∀ e, e ≠ 7 → w2.display.find? e = clickWorld.display.find? e) ∧
      (∀ e, e ≠ 4 → w2.image.find? e = clickWorld.image.find? e) :=
  C6_disclosure_click_effects 1 IconSize.xSmall clickState clickWorld 4 2 7 (by decide) (by decide) (by decide)
